import Mathlib

/-!
Verification of the device credential registry and verification subsystem of
the ESP8266 IoT Authentication Server (`esp8266-auth-server`).

The development is a shallow embedding of the JavaScript sources:

* `models/device.js` — the `DeviceModel` class: `registerDevice`,
  `verifyDevice`, `updateLastAuth`, `revokeDevice`, `getDevice`,
  `listDevices`.  The in-memory store `this.devices` (a JS object keyed by
  device id) is embedded as an association list `Registry`; persistence
  (`loadDevices` / `saveDevices`) is file I/O with no effect on the
  in-memory state and is not modelled.  Thrown JS exceptions become
  `Except.error` with the thrown message.
* `routes/auth.js` — the `POST /auth/token` handler (`requestToken`),
  including its normalization step
  `deviceId.toUpperCase().replace(/[:-]/g, ':')`.
* admin routes — the `POST /admin/register`, `POST /admin/revoke`,
  `GET /admin/devices`, `GET /admin/devices/:deviceId` handlers, which call
  the model with the RAW request-supplied id (no normalization).

External effects are passed in as explicit inputs: the current time
(`new Date().toISOString()`) as a `String`, `crypto.randomBytes(32)` as a
`List Nat` of bytes, the keyed hash `crypto.createHmac('sha256',
SERVER_SECRET).update(s).digest()` as a function `String → List Nat`, and
the Firebase `createCustomToken` call outcome as an `Except String String`.
-/

namespace IoTAuth

/-! ## Device identifier normalization (routes/auth.js line 41) -/

/-- Model of the ASCII behavior of the JS builtin `String.prototype.toUpperCase`
applied character-wise (core `Char.toUpper` has exactly this behavior on the
basic latin range: a lower-case letter is shifted down by 32, everything else
is unchanged). -/
def jsUpperChar (c : Char) : Char := c.toUpper

/-- One character of `toUpperCase().replace(/[:-]/g, ':')`: the regex `[:-]`
matches the two characters `:` and `-`, each replaced by `:`.  Upper-casing is
applied first, exactly as in the source expression. -/
def normChar (c : Char) : Char :=
  let u := jsUpperChar c
  if u = ':' ∨ u = '-' then ':' else u

/-- Model of `deviceId.toUpperCase().replace(/[:-]/g, ':')` from
`routes/auth.js`.  Both JS methods are character-wise on the string, so the
composition is a single map over the characters. -/
def normalize (s : String) : String := ⟨s.data.map normChar⟩

/-! ## Data model (models/device.js) -/

/-- Device status values used by `models/device.js`: `'active'`, `'revoked'`,
`'suspended'`. -/
inductive Status where
  | active
  | revoked
  | suspended
deriving DecidableEq, Repr

/-- The `metadata` object stored inside a device record.  In the source it is
built as `\x7b firmwareVersion: metadata.firmwareVersion || 'unknown',
hardwareVersion: metadata.hardwareVersion || 'unknown', ...metadata \x7d`;
because the spread comes last, a key present in the caller's metadata wins,
so the stored value of each recognized key is the caller's value when the
caller supplied one and `'unknown'` otherwise.  `extra` holds the remaining
(string-valued) keys of the caller's metadata, in order. -/
structure Metadata where
  firmwareVersion : String
  hardwareVersion : String
  extra : List (String × String)
deriving DecidableEq, Repr

/-- The caller-supplied `metadata` argument of `registerDevice`: the two
recognized keys, each possibly absent, plus any further string-valued keys. -/
structure MetaInput where
  firmwareVersion : Option String := none
  hardwareVersion : Option String := none
  extra : List (String × String) := []
deriving DecidableEq, Repr

/-- Builds the stored metadata object from the caller's input (see
`Metadata`). -/
def mkMetadata (m : MetaInput) : Metadata :=
  { firmwareVersion := m.firmwareVersion.getD "unknown"
    hardwareVersion := m.hardwareVersion.getD "unknown"
    extra := m.extra }

/-- A device record as constructed by `registerDevice` and mutated by
`updateLastAuth` and `revokeDevice`.  `revokedAt` and `revokeReason` are JS
properties that exist only after a revoke, hence `Option`. -/
structure Device where
  deviceId : String
  secret : String
  status : Status
  registeredAt : String
  lastAuthAt : Option String
  authCount : Nat
  revokedAt : Option String := none
  revokeReason : Option String := none
  metadata : Metadata
deriving DecidableEq, Repr

/-- The in-memory store `this.devices`, a JS object keyed by device id,
embedded as an association list in property-insertion order. -/
abbrev Registry := List (String × Device)

/-! ## Secret generation: `crypto.randomBytes(32).toString('hex')` -/

/-- Lower-case hex digit of a value below 16, as produced by Node's
`Buffer.toString('hex')`. -/
def hexDigit (n : Nat) : Char :=
  if n < 10 then Char.ofNat (48 + n) else Char.ofNat (87 + n)

/-- The two hex digits of one byte. -/
def hexByte (b : Nat) : List Char :=
  [hexDigit (b / 16 % 16), hexDigit (b % 16)]

/-- Model of `buffer.toString('hex')`: each byte becomes two lower-case hex
digits. -/
def hexEncode (bytes : List Nat) : String := ⟨(bytes.map hexByte).flatten⟩

/-- A lower-case hexadecimal character, the alphabet of Node's
`toString('hex')`. -/
def isHexChar (c : Char) : Bool :=
  ('0' ≤ c && c ≤ '9') || ('a' ≤ c && c ≤ 'f')

/-! ## registerDevice (models/device.js) -/

/-- Model of `DeviceModel.registerDevice(deviceId, metadata)`.  The secret is
`hexEncode randomBytes` where `randomBytes` stands for the
`crypto.randomBytes(32)` output, and `now` stands for
`new Date().toISOString()`.  Faithful points: the duplicate check and the
registry key both use the RAW `deviceId` argument (no normalization happens
in the model), the new device is created with `status: 'active'`,
`lastAuthAt: null`, `authCount: 0`, and on success the pair
`(deviceId, secret)` is returned — the only time the secret leaves the
registry. -/
def registerDevice (r : Registry) (deviceId : String) (metadata : MetaInput)
    (randomBytes : List Nat) (now : String) :
    Except String (Registry × String × String) :=
  match (List.lookup deviceId r : Option Device) with
  | some _ => .error "Device already registered"
  | none =>
    let secret := hexEncode randomBytes
    let device : Device :=
      { deviceId := deviceId
        secret := secret
        status := .active
        registeredAt := now
        lastAuthAt := none
        authCount := 0
        metadata := mkMetadata metadata }
    .ok (r ++ [(deviceId, device)], deviceId, secret)

/-! ## Secret verification (models/device.js, verifyDevice STEP 3) -/

/-- Model of Node's `crypto.timingSafeEqual(a, b)`: throws
(`Except.error`) when the two buffers have different byte lengths, otherwise
returns whether they are byte-for-byte equal.  (The constant-time property
itself is a real-time property outside the embedding; the functional value is
what is modelled.) -/
def timingSafeEqual (a b : List Nat) : Except String Bool :=
  if a.length = b.length then .ok (decide (a = b))
  else .error "Input buffers must have the same byte length"

/-- STEP 3 of `DeviceModel.verifyDevice`: `hash1` and `hash2` are the
HMAC-SHA-256 digests of the provided and the stored secret, keyed with
`SERVER_SECRET`, and the result is their `timingSafeEqual` comparison.  The
digest computation `crypto.createHmac('sha256', SERVER_SECRET).update(s)
.digest()` lives in Node's crypto library, outside this repository, so it is
passed in as an abstract function `hmac : String → List Nat`; HMAC-SHA-256
always produces 32-byte digests, captured where needed by the hypothesis
`∀ s, (hmac s).length = 32`. -/
def verifySecret (hmac : String → List Nat) (providedSecret storedSecret : String) :
    Except String Bool :=
  let hash1 := hmac providedSecret
  let hash2 := hmac storedSecret
  timingSafeEqual hash1 hash2

/-- Model of `DeviceModel.verifyDevice(deviceId, providedSecret)`:
STEP 1 looks the raw key up (`null` → `none`), STEP 2 rejects any status
other than `'active'`, STEP 3 compares the keyed hashes, STEP 4 returns the
full device record.  A `timingSafeEqual` throw propagates as
`Except.error`; the three authentication failures all return
`Except.ok none` (the JS `null`). -/
def verifyDevice (r : Registry) (hmac : String → List Nat)
    (deviceId providedSecret : String) : Except String (Option Device) :=
  match (List.lookup deviceId r : Option Device) with
  | none => .ok none
  | some device =>
    if device.status ≠ Status.active then .ok none
    else
      match verifySecret hmac providedSecret device.secret with
      | .error e => .error e
      | .ok b => if b then .ok (some device) else .ok none

/-! ## updateLastAuth and revokeDevice (models/device.js) -/

/-- In-place mutation of the record stored under `key` in the JS object,
leaving every other key untouched. -/
def updateEntry (r : Registry) (key : String) (f : Device → Device) : Registry :=
  r.map fun kv => if kv.1 = key then (kv.1, f kv.2) else kv

/-- Model of `DeviceModel.updateLastAuth(deviceId)`: when the id is present,
set `lastAuthAt` to the current time and increment `authCount`; otherwise do
nothing. -/
def updateLastAuth (r : Registry) (deviceId : String) (now : String) : Registry :=
  if (List.lookup deviceId r : Option Device).isSome then
    updateEntry r deviceId fun d =>
      { d with lastAuthAt := some now, authCount := d.authCount + 1 }
  else r

/-- Model of `DeviceModel.revokeDevice(deviceId, reason)`: throws
`'Device not found'` when the raw id is absent, otherwise sets
`status = 'revoked'`, `revokedAt = now`, `revokeReason = reason`.  The JS
default parameter `reason = ''` applies when the caller passed `undefined`,
hence `reason.getD ""`. -/
def revokeDevice (r : Registry) (deviceId : String) (reason : Option String)
    (now : String) : Except String Registry :=
  match (List.lookup deviceId r : Option Device) with
  | none => .error "Device not found"
  | some _ =>
    .ok (updateEntry r deviceId fun d =>
      { d with status := .revoked
               revokedAt := some now
               revokeReason := some (reason.getD "") })

/-! ## Safe reads: getDevice and listDevices (models/device.js) -/

/-- A JS value as it appears in a serialized device record. -/
inductive JsVal where
  | str (s : String)
  | num (n : Nat)
  | nullV
  | obj (fields : List (String × JsVal))

/-- The JS string of a `Status`. -/
def statusStr : Status → String
  | .active => "active"
  | .revoked => "revoked"
  | .suspended => "suspended"

/-- Serialization of the metadata object in property order. -/
def metadataObj (m : Metadata) : List (String × JsVal) :=
  [("firmwareVersion", .str m.firmwareVersion),
   ("hardwareVersion", .str m.hardwareVersion)]
  ++ m.extra.map fun p => (p.1, JsVal.str p.2)

/-- A property that exists only when the option is set (JS adds `revokedAt`
and `revokeReason` to the object at revoke time). -/
def optField (name : String) : Option String → List (String × JsVal)
  | none => []
  | some v => [(name, .str v)]

/-- The own enumerable properties of a device record, in insertion order:
the seven properties built by `registerDevice`, then the two added by
`revokeDevice` when present. -/
def deviceObj (d : Device) : List (String × JsVal) :=
  [("deviceId", .str d.deviceId),
   ("secret", .str d.secret),
   ("status", .str (statusStr d.status)),
   ("registeredAt", .str d.registeredAt),
   ("lastAuthAt", match d.lastAuthAt with | none => JsVal.nullV | some t => JsVal.str t),
   ("authCount", .num d.authCount),
   ("metadata", .obj (metadataObj d.metadata))]
  ++ optField "revokedAt" d.revokedAt
  ++ optField "revokeReason" d.revokeReason

/-- Model of `DeviceModel.getDevice(deviceId)`: raw-key lookup, then the
destructuring `const \x7b secret, ...safeDevice \x7d = device`, which keeps
every own property except `secret`. -/
def getDevice (r : Registry) (deviceId : String) : Option (List (String × JsVal)) :=
  (List.lookup deviceId r : Option Device).map fun device =>
    (deviceObj device).filter fun kv => kv.1 ≠ "secret"

/-- Model of `DeviceModel.listDevices()`:
`Object.keys(this.devices).map(id => this.getDevice(id))`. -/
def listDevices (r : Registry) : List (Option (List (String × JsVal))) :=
  r.map fun kv => getDevice r kv.1

/-! ## The POST /auth/token route (routes/auth.js) -/

/-- The request body of `POST /auth/token`.  A missing JS property is
`none`; note the handler's validation `!deviceId || !secret` also treats the
empty string as missing (JS falsiness). -/
structure TokenBody where
  deviceId : Option String := none
  secret : Option String := none
  firmwareVersion : Option String := none
deriving DecidableEq, Repr

/-- JS falsiness of an optional string request field: absent (`undefined`)
or the empty string. -/
def isFalsy : Option String → Bool
  | none => true
  | some s => s = ""

/-- The externally observable HTTP response of the token route. -/
inductive Response where
  | ok (customToken : String) (expiresIn : Nat) (message : String)
  | badRequest (error : String)
  | unauthorized (error : String)
  | serverError (error : String)
deriving DecidableEq, Repr

/-- Model of the `POST /auth/token` handler: validate the body, normalize
the id (`routes/auth.js` line 41), `verifyDevice` with the normalized id,
401 `'Invalid credentials'` when verification returns `null`, then call
Firebase `createCustomToken` (outcome passed in as `issuer`), and only if it
succeeded call `updateLastAuth` and answer
`\x7b customToken, expiresIn: 3600, message \x7d`.  Any exception — a
`timingSafeEqual` throw or an issuer failure — is caught by the handler's
`try/catch` and answered as 500 `'Failed to create token'`.  The function
returns the response together with the registry state after the request. -/
def requestToken (r : Registry) (hmac : String → List Nat) (body : TokenBody)
    (issuer : Except String String) (now : String) : Response × Registry :=
  if isFalsy body.deviceId || isFalsy body.secret then
    (.badRequest "Missing required fields: deviceId, secret", r)
  else
    match verifyDevice r hmac (normalize (body.deviceId.getD ""))
        (body.secret.getD "") with
    | .error _ => (.serverError "Failed to create token", r)
    | .ok none => (.unauthorized "Invalid credentials", r)
    | .ok (some _device) =>
      match issuer with
      | .error _ => (.serverError "Failed to create token", r)
      | .ok customToken =>
        (.ok customToken 3600 "Authentication successful",
         updateLastAuth r (normalize (body.deviceId.getD "")) now)

/-- The three internal authentication-failure reasons distinguished by the
`console.log` audit lines of `verifyDevice` (unknown device / non-active
status / invalid secret).  They are never part of the HTTP response. -/
inductive AuthFailure where
  | unknownDevice
  | inactive (status : Status)
  | badSecret
deriving DecidableEq, Repr

/-- Which audit-log failure branch of `verifyDevice` fires, if any:
`none` means verification succeeds (or throws).  Mirrors the branch
structure of `verifyDevice` exactly. -/
def classifyFailure (r : Registry) (hmac : String → List Nat)
    (deviceId providedSecret : String) : Option AuthFailure :=
  match (List.lookup deviceId r : Option Device) with
  | none => some .unknownDevice
  | some device =>
    if device.status ≠ Status.active then some (.inactive device.status)
    else
      match verifySecret hmac providedSecret device.secret with
      | .error _ => none
      | .ok b => if b then none else some .badSecret

/-! ## The admin routes (POST /admin/register, POST /admin/revoke,
GET /admin/devices/:deviceId) -/

/-- Responses of the admin routes, as far as the claims need them. -/
inductive AdminResponse where
  | registered (deviceId secret : String)
  | revoked (deviceId : String)
  | badRequest (error : String)
deriving DecidableEq, Repr

/-- Model of the `POST /admin/register` handler: validates `deviceId`
presence, then calls `deviceModel.registerDevice(deviceId, metadata)` with
the RAW body id — the admin routes perform no normalization.  A model throw
is answered as 400 with the thrown message. -/
def adminRegister (r : Registry) (deviceId : Option String) (metadata : MetaInput)
    (randomBytes : List Nat) (now : String) : AdminResponse × Registry :=
  match deviceId with
  | none => (.badRequest "Missing deviceId", r)
  | some id =>
    match registerDevice r id metadata randomBytes now with
    | .error e => (.badRequest e, r)
    | .ok (rNew, retId, secret) => (.registered retId secret, rNew)

/-- Model of the `POST /admin/revoke` handler: validates `deviceId`
presence, then calls `deviceModel.revokeDevice(deviceId, reason)` with the
RAW body id. -/
def adminRevoke (r : Registry) (deviceId : Option String) (reason : Option String)
    (now : String) : AdminResponse × Registry :=
  match deviceId with
  | none => (.badRequest "Missing deviceId", r)
  | some id =>
    match revokeDevice r id reason now with
    | .error e => (.badRequest e, r)
    | .ok rNew => (.revoked id, rNew)

/-! ## The registry operations as a state machine -/

/-- One registry-mutating operation, with its external inputs (time, random
bytes).  These are the only code paths that write `this.devices`. -/
inductive Op where
  | register (deviceId : String) (metadata : MetaInput)
      (randomBytes : List Nat) (now : String)
  | recordAuth (deviceId : String) (now : String)
  | revoke (deviceId : String) (reason : Option String) (now : String)

/-- The registry after one operation; an operation that throws leaves the
registry unchanged (the JS throw happens before any mutation). -/
def applyOp (r : Registry) : Op → Registry
  | .register deviceId metadata randomBytes now =>
    match registerDevice r deviceId metadata randomBytes now with
    | .error _ => r
    | .ok (rNew, _, _) => rNew
  | .recordAuth deviceId now => updateLastAuth r deviceId now
  | .revoke deviceId reason now =>
    match revokeDevice r deviceId reason now with
    | .error _ => r
    | .ok rNew => rNew

/-! ## Helper lemmas -/

theorem toNat_ofNat_of_valid (n : Nat) (h : n < 55296) : (Char.ofNat n).toNat = n := by
  rw [Char.ofNat, dif_pos (Or.inl (by exact_mod_cast h))]
  rfl

theorem jsUpperChar_idem (c : Char) : jsUpperChar (jsUpperChar c) = jsUpperChar c := by
  unfold jsUpperChar Char.toUpper
  by_cases h : c.toNat ≥ 97 ∧ c.toNat ≤ 122
  · rw [if_pos h]
    have h2 : (Char.ofNat (c.toNat - 32)).toNat = c.toNat - 32 :=
      toNat_ofNat_of_valid _ (by omega)
    rw [if_neg (by omega)]
  · rw [if_neg h, if_neg h]

theorem normChar_idem (c : Char) : normChar (normChar c) = normChar c := by
  simp only [normChar]
  by_cases h : jsUpperChar c = ':' ∨ jsUpperChar c = '-'
  · rw [if_pos h]
    decide
  · rw [if_neg h, jsUpperChar_idem, if_neg h]

theorem map_normChar_idem (l : List Char) :
    (l.map normChar).map normChar = l.map normChar := by
  induction l with
  | nil => rfl
  | cons c l ih => simp [normChar_idem c, ih]

theorem normalize_idem (s : String) : normalize (normalize s) = normalize s :=
  congrArg String.mk (map_normChar_idem s.data)

theorem lookup_updateEntry_self (r : Registry) (k : String) (f : Device → Device) :
    List.lookup k (updateEntry r k f) = (List.lookup k r).map f := by
  induction r with
  | nil => rfl
  | cons kv r ih =>
    simp only [updateEntry, List.map_cons] at *
    by_cases h : kv.1 = k
    · rw [if_pos h]
      obtain ⟨k1, d⟩ := kv
      simp only at h
      subst h
      simp [List.lookup_cons]
    · rw [if_neg h]
      obtain ⟨k1, d⟩ := kv
      simp only at h
      have hbeq : (k == k1) = false := by
        simp [Ne.symm h]
      simp [List.lookup_cons, hbeq, ih]

theorem lookup_updateEntry_other (r : Registry) (k j : String) (f : Device → Device)
    (hne : j ≠ k) : List.lookup j (updateEntry r k f) = List.lookup j r := by
  induction r with
  | nil => rfl
  | cons kv r ih =>
    simp only [updateEntry, List.map_cons] at *
    by_cases h : kv.1 = k
    · rw [if_pos h]
      obtain ⟨k1, d⟩ := kv
      simp only at h
      subst h
      have hbeq : (j == k1) = false := by simp [hne]
      simp [List.lookup_cons, hbeq, ih]
    · rw [if_neg h]
      obtain ⟨k1, d⟩ := kv
      simp [List.lookup_cons, ih]

theorem getDevice_no_secret_key (r : Registry) (deviceId : String)
    (fields : List (String × JsVal)) (h : getDevice r deviceId = some fields) :
    "secret" ∉ fields.map Prod.fst := by
  simp only [getDevice, Option.map_eq_some'] at h
  obtain ⟨d, _, rfl⟩ := h
  intro hmem
  simp only [List.mem_map] at hmem
  obtain ⟨kv, hkv, hfst⟩ := hmem
  have h2 := List.of_mem_filter hkv
  simp only [decide_eq_true_eq] at h2
  exact h2 hfst

theorem hexDigit_isHexChar (n : Nat) (h : n < 16) : isHexChar (hexDigit n) = true := by
  interval_cases n <;> decide

theorem hexEncode_length (bytes : List Nat) :
    (hexEncode bytes).length = 2 * bytes.length := by
  show ((bytes.map hexByte).flatten).length = 2 * bytes.length
  induction bytes with
  | nil => rfl
  | cons b bs ih =>
    simp only [List.map_cons, List.flatten_cons, List.length_append, List.length_cons] at *
    simp only [hexByte, List.length_cons, List.length_nil]
    omega

theorem hexEncode_chars (bytes : List Nat) :
    ∀ c ∈ (hexEncode bytes).data, isHexChar c = true := by
  induction bytes with
  | nil => intro c hc; simp [hexEncode] at hc
  | cons b bs ih =>
    intro c hc
    simp only [hexEncode, List.map_cons, List.flatten_cons, List.mem_append] at hc
    rcases hc with h | h
    · simp only [hexByte, List.mem_cons, List.not_mem_nil, or_false] at h
      rcases h with h | h <;> subst h <;> exact hexDigit_isHexChar _ (by omega)
    · exact ih c h

/-! ## Claim theorems -/

/-- C3: the identifier normalization (uppercase all characters, then replace
every `-`, and the already-canonical `:`, with `:`) is a pure Lean function,
hence deterministic; it is idempotent — `normalize (normalize x) =
normalize x` for every string `x` — and it maps separator/case variants of
one MAC to one value: `normalize "5c-cf-7f-12-34-56" =
normalize "5C:CF:7F:12:34:56"`. -/
theorem normalize_idempotent_and_variant_insensitive :
    (∀ x : String, normalize (normalize x) = normalize x) ∧
    normalize "5c-cf-7f-12-34-56" = normalize "5C:CF:7F:12:34:56" :=
  ⟨normalize_idem, by decide⟩

/-- C5: for every pair of provided and stored secret strings (differing
lengths included), secret verification returns a boolean — never an error —
and the boolean is `true` exactly when the keyed hash of the provided secret
byte-equals the keyed hash of the stored secret.  The hypothesis records
that HMAC-SHA-256 digests always have 32 bytes. -/
theorem verifySecret_true_iff_digests_equal (hmac : String → List Nat)
    (hlen : ∀ s, (hmac s).length = 32) (providedSecret storedSecret : String) :
    verifySecret hmac providedSecret storedSecret =
      Except.ok (decide (hmac providedSecret = hmac storedSecret)) ∧
    (verifySecret hmac providedSecret storedSecret = Except.ok true ↔
      hmac providedSecret = hmac storedSecret) := by
  constructor
  · simp [verifySecret, timingSafeEqual, hlen]
  · simp [verifySecret, timingSafeEqual, hlen]

/-- C5 witness: a concrete 32-byte-digest hash function, and a provided and
a stored secret of different lengths, on which verification returns
`ok false` rather than an error. -/
theorem verifySecret_true_iff_digests_equal_witness :
    verifySecret (fun s => List.replicate 31 0 ++ [s.length % 256]) "a" "abcd" =
      Except.ok false := by
  have h := verifySecret_true_iff_digests_equal
    (fun s => List.replicate 31 0 ++ [s.length % 256]) (fun s => by simp) "a" "abcd"
  rw [h.1]
  congr 1

/-- C9: neither the single-device safe read (`getDevice`) nor the list read
(`listDevices`) ever includes a `secret` field in any returned device view,
for every registry state and device id. -/
theorem safe_reads_never_include_secret :
    (∀ (r : Registry) (deviceId : String) (fields : List (String × JsVal)),
        getDevice r deviceId = some fields → "secret" ∉ fields.map Prod.fst) ∧
    (∀ (r : Registry) (view : Option (List (String × JsVal))),
        view ∈ listDevices r → ∀ fields, view = some fields →
          "secret" ∉ fields.map Prod.fst) := by
  refine ⟨fun r id fields h => getDevice_no_secret_key r id fields h, ?_⟩
  intro r view hview fields hf
  subst hf
  simp only [listDevices, List.mem_map] at hview
  obtain ⟨kv, _, hkv⟩ := hview
  exact getDevice_no_secret_key r kv.1 fields hkv

/-- C9 witness: the safe read of a concrete revoked device with a full
history strips exactly the secret and nothing is left of it in the view. -/
theorem safe_reads_never_include_secret_witness :
    getDevice
      [("AA", ⟨"AA", "topsecret", .revoked, "t0", some "t1", 3, some "t2", some "lost",
        ⟨"1.0", "ESP-12E", [("location", "lab")]⟩⟩)] "AA" =
      some [("deviceId", .str "AA"), ("status", .str "revoked"),
            ("registeredAt", .str "t0"), ("lastAuthAt", .str "t1"),
            ("authCount", .num 3),
            ("metadata", .obj [("firmwareVersion", .str "1.0"),
                               ("hardwareVersion", .str "ESP-12E"),
                               ("location", .str "lab")]),
            ("revokedAt", .str "t2"), ("revokeReason", .str "lost")] ∧
    "secret" ∉
      ([("deviceId", JsVal.str "AA"), ("status", .str "revoked"),
        ("registeredAt", .str "t0"), ("lastAuthAt", .str "t1"),
        ("authCount", .num 3),
        ("metadata", .obj [("firmwareVersion", .str "1.0"),
                           ("hardwareVersion", .str "ESP-12E"),
                           ("location", .str "lab")]),
        ("revokedAt", .str "t2"), ("revokeReason", .str "lost")].map Prod.fst) :=
  ⟨rfl, safe_reads_never_include_secret.1
    [("AA", ⟨"AA", "topsecret", .revoked, "t0", some "t1", 3, some "t2", some "lost",
      ⟨"1.0", "ESP-12E", [("location", "lab")]⟩⟩)] "AA"
    [("deviceId", JsVal.str "AA"), ("status", .str "revoked"),
     ("registeredAt", .str "t0"), ("lastAuthAt", .str "t1"),
     ("authCount", .num 3),
     ("metadata", .obj [("firmwareVersion", .str "1.0"),
                        ("hardwareVersion", .str "ESP-12E"),
                        ("location", .str "lab")]),
     ("revokedAt", .str "t2"), ("revokeReason", .str "lost")] rfl⟩

/-- C4: for every device id not already in the registry, registration
succeeds and returns the pair of the id and a 64-character lower-case hex
secret (the hex encoding of the 32 random bytes, i.e. 256 bits), and a
subsequent lookup of that id finds a device with `status = active`,
`authCount = 0` and `lastAuthAt = null`. -/
theorem register_fresh_id_succeeds (r : Registry) (deviceId : String)
    (metadata : MetaInput) (randomBytes : List Nat) (now : String)
    (habs : List.lookup deviceId r = none)
    (hlen : randomBytes.length = 32) :
    ∃ (rNew : Registry) (secret : String),
      registerDevice r deviceId metadata randomBytes now =
        .ok (rNew, deviceId, secret) ∧
      secret.length = 64 ∧
      (∀ c ∈ secret.data, isHexChar c = true) ∧
      ∃ d : Device, List.lookup deviceId rNew = some d ∧
        d.status = .active ∧ d.authCount = 0 ∧ d.lastAuthAt = none ∧
        d.secret = secret := by
  simp only [registerDevice, habs]
  refine ⟨_, _, rfl, ?_, hexEncode_chars randomBytes, ?_⟩
  · rw [hexEncode_length, hlen]
  · refine ⟨{ deviceId := deviceId, secret := hexEncode randomBytes,
              status := .active, registeredAt := now, lastAuthAt := none,
              authCount := 0, metadata := mkMetadata metadata },
            ?_, rfl, rfl, rfl, rfl⟩
    rw [List.lookup_append, habs]
    simp

/-- C4 witness: a concrete registration into the empty registry. -/
theorem register_fresh_id_succeeds_witness :
    ∃ (rNew : Registry) (secret : String),
      registerDevice [] "AA:BB:CC:DD:EE:FF" {} (List.replicate 32 171)
          "2024-01-15T10:30:00.000Z" =
        .ok (rNew, "AA:BB:CC:DD:EE:FF", secret) ∧
      secret.length = 64 ∧
      (∀ c ∈ secret.data, isHexChar c = true) ∧
      ∃ d : Device, List.lookup "AA:BB:CC:DD:EE:FF" rNew = some d ∧
        d.status = .active ∧ d.authCount = 0 ∧ d.lastAuthAt = none ∧
        d.secret = secret :=
  register_fresh_id_succeeds [] "AA:BB:CC:DD:EE:FF" {} (List.replicate 32 171)
    "2024-01-15T10:30:00.000Z" rfl (by decide)

/-- C1 counterexample: the registry does not canonicalize ids, so the two
case variants of one MAC (the claim's own example) both register
successfully — the second call does NOT fail with `'Device already
registered'`. -/
theorem register_case_variants_both_succeed :
    ∃ (r1 : Registry) (ret : String × String),
      registerDevice [] "aa:bb:cc:dd:ee:ff" {} (List.replicate 32 0) "t1" =
        .ok (r1, ret) ∧
      (registerDevice r1 "AA:BB:CC:DD:EE:FF" {} (List.replicate 32 1) "t2").isOk
        = true := by
  refine ⟨_, _, rfl, ?_⟩
  decide

/-- C1 (amended): registering the same RAW id string twice makes the second
call fail with `'Device already registered'` and leaves the first device's
secret unchanged; because `registerDevice` keys on the raw argument,
case/separator variants of one canonical id are distinct keys. -/
theorem register_same_raw_id_twice_fails (r : Registry) (deviceId : String)
    (m1 m2 : MetaInput) (b1 b2 : List Nat) (t1 t2 : String)
    (r1 : Registry) (ret : String × String)
    (h : registerDevice r deviceId m1 b1 t1 = .ok (r1, ret)) :
    registerDevice r1 deviceId m2 b2 t2 = .error "Device already registered" ∧
    ∃ d : Device, List.lookup deviceId r1 = some d ∧ d.secret = hexEncode b1 := by
  cases hl : (List.lookup deviceId r : Option Device) with
  | some d0 => simp [registerDevice, hl] at h
  | none =>
    simp only [registerDevice, hl, Except.ok.injEq, Prod.mk.injEq] at h
    obtain ⟨hr, -⟩ := h
    have hlook : List.lookup deviceId r1 = some
        { deviceId := deviceId, secret := hexEncode b1, status := .active,
          registeredAt := t1, lastAuthAt := none, authCount := 0,
          metadata := mkMetadata m1 } := by
      rw [← hr, List.lookup_append, hl]
      simp
    exact ⟨by simp [registerDevice, hlook], ⟨_, hlook, rfl⟩⟩

/-- C1 witness: re-registering the exact string `"aa:bb:cc:dd:ee:ff"` into
the registry produced by its first registration fails, and the stored secret
is still the one from the first call. -/
theorem register_same_raw_id_twice_fails_witness :
    registerDevice
      [("aa:bb:cc:dd:ee:ff",
        ⟨"aa:bb:cc:dd:ee:ff", hexEncode (List.replicate 32 0), .active, "t1",
         none, 0, none, none, ⟨"unknown", "unknown", []⟩⟩)]
      "aa:bb:cc:dd:ee:ff" {} (List.replicate 32 1) "t2" =
        .error "Device already registered" ∧
    ∃ d : Device,
      List.lookup "aa:bb:cc:dd:ee:ff"
        [("aa:bb:cc:dd:ee:ff",
          ⟨"aa:bb:cc:dd:ee:ff", hexEncode (List.replicate 32 0), .active, "t1",
           none, 0, none, none, ⟨"unknown", "unknown", []⟩⟩)] = some d ∧
      d.secret = hexEncode (List.replicate 32 0) :=
  register_same_raw_id_twice_fails [] "aa:bb:cc:dd:ee:ff" {} {}
    (List.replicate 32 0) (List.replicate 32 1) "t1" "t2" _
    ("aa:bb:cc:dd:ee:ff", hexEncode (List.replicate 32 0)) rfl

/-- C2 counterexample: after registering `"aa:bb:cc:dd:ee:ff"`, the admin
single-device read addressed with the canonical spelling
`"AA:BB:CC:DD:EE:FF"` finds nothing, while the raw spelling does — registry
keys and admin lookups do not use the canonical form. -/
theorem admin_lookup_not_canonical :
    ∃ (r1 : Registry) (ret : String × String),
      registerDevice [] "aa:bb:cc:dd:ee:ff" {} (List.replicate 32 2) "t1" =
        .ok (r1, ret) ∧
      getDevice r1 "AA:BB:CC:DD:EE:FF" = none ∧
      getDevice r1 "aa:bb:cc:dd:ee:ff" ≠ none := by
  refine ⟨_, _, rfl, rfl, ?_⟩
  intro h
  exact Option.noConfusion h

/-- C2 (amended): only the token path canonicalizes the caller-supplied id —
two raw spellings with equal normalizations make `POST /auth/token` behave
identically (same response, same resulting registry), whereas the admin
operations key on the raw string (see the counterexample). -/
theorem token_path_uses_canonical_id (r : Registry) (hmac : String → List Nat)
    (x y : String) (hxy : normalize x = normalize y)
    (secret fw1 fw2 : Option String) (issuer : Except String String)
    (now : String) :
    requestToken r hmac
      { deviceId := some x, secret := secret, firmwareVersion := fw1 } issuer now =
    requestToken r hmac
      { deviceId := some y, secret := secret, firmwareVersion := fw2 } issuer now := by
  have hlen : x.data.length = y.data.length := by
    have h := congrArg (fun s => s.data.length) hxy
    simpa [normalize] using h
  by_cases hx : x = ""
  · have hy : y = "" := by
      cases y with
      | mk yd =>
        cases yd with
        | nil => rfl
        | cons a l => rw [hx] at hlen; simp [String.data] at hlen
    subst hx
    subst hy
    simp [requestToken, isFalsy]
  · have hy : ¬ y = "" := by
      intro hy
      apply hx
      cases x with
      | mk xd =>
        cases xd with
        | nil => rfl
        | cons a l => rw [hy] at hlen; simp [String.data] at hlen
    simp [requestToken, isFalsy, hx, hy, hxy]

/-- C2 witness: a dash-lower-case spelling and a colon-upper-case spelling of
one MAC produce identical token-path outcomes on a concrete registry. -/
theorem token_path_uses_canonical_id_witness :
    requestToken [] (fun _ => [])
      { deviceId := some "aa-bb", secret := some "s", firmwareVersion := none }
      (.ok "tok") "t" =
    requestToken [] (fun _ => [])
      { deviceId := some "AA:BB", secret := some "s", firmwareVersion := none }
      (.ok "tok") "t" :=
  token_path_uses_canonical_id [] (fun _ => []) "aa-bb" "AA:BB" (by decide)
    (some "s") none none (.ok "tok") "t"

/-- C6: revocation is terminal.  First: when the device under the normalized
id is revoked, every token request for it answers 401
`'Invalid credentials'` and leaves the registry unchanged, whatever secret is
supplied — the status gate fires before the secret is even hashed.  Second:
no registry operation (register, success recording, revoke) moves a device
out of the `revoked` status. -/
theorem revocation_is_terminal :
    (∀ (r : Registry) (hmac : String → List Nat) (raw secretStr : String)
        (fw : Option String) (issuer : Except String String) (now : String)
        (d : Device),
        raw ≠ "" → secretStr ≠ "" →
        List.lookup (normalize raw) r = some d → d.status = .revoked →
        requestToken r hmac
          { deviceId := some raw, secret := some secretStr,
            firmwareVersion := fw } issuer now =
          (.unauthorized "Invalid credentials", r)) ∧
    (∀ (r : Registry) (op : Op) (deviceId : String) (d : Device),
        List.lookup deviceId r = some d → d.status = .revoked →
        ∃ d2 : Device,
          List.lookup deviceId (applyOp r op) = some d2 ∧ d2.status = .revoked) := by
  constructor
  · intro r hmac raw s fw issuer now d hraw hs hlook hrev
    simp [requestToken, isFalsy, hraw, hs, verifyDevice, hlook, hrev]
  · intro r op deviceId d hlook hrev
    cases op with
    | register id2 m b t =>
      simp only [applyOp]
      cases hl : (List.lookup id2 r : Option Device) with
      | some d0 =>
        simp only [registerDevice, hl]
        exact ⟨d, hlook, hrev⟩
      | none =>
        simp only [registerDevice, hl]
        refine ⟨d, ?_, hrev⟩
        rw [List.lookup_append, hlook]
        rfl
    | recordAuth id2 t =>
      simp only [applyOp, updateLastAuth]
      by_cases hg : (List.lookup id2 r : Option Device).isSome
      · rw [if_pos hg]
        by_cases heq : deviceId = id2
        · subst heq
          have hl := lookup_updateEntry_self r deviceId
            (fun d => { d with lastAuthAt := some t, authCount := d.authCount + 1 })
          rw [hlook] at hl
          exact ⟨_, hl, hrev⟩
        · rw [lookup_updateEntry_other r id2 deviceId _ heq]
          exact ⟨d, hlook, hrev⟩
      · rw [if_neg hg]
        exact ⟨d, hlook, hrev⟩
    | revoke id2 reason t =>
      simp only [applyOp]
      cases hl : (List.lookup id2 r : Option Device) with
      | none =>
        simp only [revokeDevice, hl]
        exact ⟨d, hlook, hrev⟩
      | some d0 =>
        simp only [revokeDevice, hl]
        by_cases heq : deviceId = id2
        · subst heq
          have hl2 := lookup_updateEntry_self r deviceId
            (fun d => { d with status := .revoked, revokedAt := some t,
                               revokeReason := some (reason.getD "") })
          rw [hlook] at hl2
          exact ⟨_, hl2, rfl⟩
        · rw [lookup_updateEntry_other r id2 deviceId _ heq]
          exact ⟨d, hlook, hrev⟩

/-- C6 witness: a concrete revoked device rejects a token request carrying
its very own stored secret, and a success-recording operation leaves it
revoked. -/
theorem revocation_is_terminal_witness :
    requestToken
      [("AA", ⟨"AA", "sec", .revoked, "t0", none, 0, some "t1", some "lost",
        ⟨"unknown", "unknown", []⟩⟩)]
      (fun _ => [])
      { deviceId := some "aa", secret := some "sec", firmwareVersion := none }
      (.ok "tok") "t2" =
      (.unauthorized "Invalid credentials",
       [("AA", ⟨"AA", "sec", .revoked, "t0", none, 0, some "t1", some "lost",
         ⟨"unknown", "unknown", []⟩⟩)]) ∧
    ∃ d2 : Device,
      List.lookup "AA"
        (applyOp
          [("AA", ⟨"AA", "sec", .revoked, "t0", none, 0, some "t1", some "lost",
            ⟨"unknown", "unknown", []⟩⟩)]
          (.recordAuth "AA" "t3")) = some d2 ∧ d2.status = .revoked :=
  ⟨revocation_is_terminal.1 _ (fun _ => []) "aa" "sec" none (.ok "tok") "t2"
      ⟨"AA", "sec", .revoked, "t0", none, 0, some "t1", some "lost",
        ⟨"unknown", "unknown", []⟩⟩
      (by decide) (by decide) rfl rfl,
   revocation_is_terminal.2 _ (.recordAuth "AA" "t3") "AA"
      ⟨"AA", "sec", .revoked, "t0", none, 0, some "t1", some "lost",
        ⟨"unknown", "unknown", []⟩⟩
      rfl rfl⟩

/-- C7: a failed issuance never counts as an authentication.  First: with a
failing issuer call the token route leaves the registry — hence every
device's `lastAuthAt` and `authCount` — unchanged, whatever the request.
Second: when verification had succeeded and the issuer call fails, the
external outcome is the 500 upstream error. -/
theorem issuer_failure_not_recorded :
    (∀ (r : Registry) (hmac : String → List Nat) (body : TokenBody)
        (e : String) (now : String),
        (requestToken r hmac body (.error e) now).2 = r) ∧
    (∀ (r : Registry) (hmac : String → List Nat) (body : TokenBody)
        (e : String) (now : String) (d : Device),
        isFalsy body.deviceId = false → isFalsy body.secret = false →
        verifyDevice r hmac (normalize (body.deviceId.getD ""))
            (body.secret.getD "") = .ok (some d) →
        requestToken r hmac body (.error e) now =
          (.serverError "Failed to create token", r)) := by
  constructor
  · intro r hmac body e now
    unfold requestToken
    by_cases hc : (isFalsy body.deviceId || isFalsy body.secret) = true
    · rw [if_pos hc]
    · rw [if_neg hc]
      cases hv : verifyDevice r hmac (normalize (body.deviceId.getD ""))
          (body.secret.getD "") with
      | error a => rfl
      | ok o => cases o <;> rfl
  · intro r hmac body e now d hd hs hver
    unfold requestToken
    rw [if_neg (by rw [hd, hs]; simp), hver]

/-- C7 witness: a concrete verified device together with a failing issuer
call yields the 500 upstream answer and the untouched registry. -/
theorem issuer_failure_not_recorded_witness :
    (requestToken
      [("AA", ⟨"AA", "sec", .active, "t0", none, 0, none, none,
        ⟨"unknown", "unknown", []⟩⟩)]
      (fun _ => [])
      { deviceId := some "AA", secret := some "sec", firmwareVersion := none }
      (.error "issuer down") "t2").2 =
      [("AA", ⟨"AA", "sec", .active, "t0", none, 0, none, none,
        ⟨"unknown", "unknown", []⟩⟩)] ∧
    requestToken
      [("AA", ⟨"AA", "sec", .active, "t0", none, 0, none, none,
        ⟨"unknown", "unknown", []⟩⟩)]
      (fun _ => [])
      { deviceId := some "AA", secret := some "sec", firmwareVersion := none }
      (.error "issuer down") "t2" =
      (.serverError "Failed to create token",
       [("AA", ⟨"AA", "sec", .active, "t0", none, 0, none, none,
         ⟨"unknown", "unknown", []⟩⟩)]) :=
  ⟨issuer_failure_not_recorded.1 _ (fun _ => [])
      { deviceId := some "AA", secret := some "sec", firmwareVersion := none }
      "issuer down" "t2",
   issuer_failure_not_recorded.2 _ (fun _ => [])
      { deviceId := some "AA", secret := some "sec", firmwareVersion := none }
      "issuer down" "t2"
      ⟨"AA", "sec", .active, "t0", none, 0, none, none,
        ⟨"unknown", "unknown", []⟩⟩
      rfl rfl rfl⟩

theorem classifyFailure_some_imp_verify_none (r : Registry)
    (hmac : String → List Nat) (deviceId providedSecret : String)
    (f : AuthFailure)
    (h : classifyFailure r hmac deviceId providedSecret = some f) :
    verifyDevice r hmac deviceId providedSecret = .ok none := by
  cases hl : (List.lookup deviceId r : Option Device) with
  | none => simp [verifyDevice, hl]
  | some d =>
    simp only [classifyFailure, hl] at h
    simp only [verifyDevice, hl]
    by_cases hst : d.status ≠ Status.active
    · rw [if_pos hst]
    · rw [if_neg hst] at h
      rw [if_neg hst]
      cases hv : verifySecret hmac providedSecret d.secret with
      | error e =>
        rw [hv] at h
        exact Option.noConfusion h
      | ok b =>
        rw [hv] at h
        cases b with
        | true => exact Option.noConfusion h
        | false => rfl

/-- C8: any two failing token requests — whatever their internal failure
reasons (unknown device, inactive status, wrong secret), in particular when
the reasons differ — produce the identical external response, 401
`'Invalid credentials'`, so the caller learns nothing about which reason
applied. -/
theorem failure_reasons_indistinguishable
    (r1 r2 : Registry) (hmac1 hmac2 : String → List Nat)
    (b1 b2 : TokenBody) (i1 i2 : Except String String) (n1 n2 : String)
    (f1 f2 : AuthFailure) (_hne : f1 ≠ f2)
    (hd1 : isFalsy b1.deviceId = false) (hs1 : isFalsy b1.secret = false)
    (hd2 : isFalsy b2.deviceId = false) (hs2 : isFalsy b2.secret = false)
    (hc1 : classifyFailure r1 hmac1 (normalize (b1.deviceId.getD ""))
        (b1.secret.getD "") = some f1)
    (hc2 : classifyFailure r2 hmac2 (normalize (b2.deviceId.getD ""))
        (b2.secret.getD "") = some f2) :
    (requestToken r1 hmac1 b1 i1 n1).1 = .unauthorized "Invalid credentials" ∧
    (requestToken r1 hmac1 b1 i1 n1).1 = (requestToken r2 hmac2 b2 i2 n2).1 := by
  have h1 := classifyFailure_some_imp_verify_none _ _ _ _ _ hc1
  have h2 := classifyFailure_some_imp_verify_none _ _ _ _ _ hc2
  have e1 : requestToken r1 hmac1 b1 i1 n1 =
      (.unauthorized "Invalid credentials", r1) := by
    unfold requestToken
    rw [if_neg (by rw [hd1, hs1]; simp), h1]
  have e2 : requestToken r2 hmac2 b2 i2 n2 =
      (.unauthorized "Invalid credentials", r2) := by
    unfold requestToken
    rw [if_neg (by rw [hd2, hs2]; simp), h2]
  rw [e1, e2]
  exact ⟨rfl, rfl⟩

/-- C8 witness: an unknown-device failure and a revoked-device failure (two
distinct internal reasons) answered identically. -/
theorem failure_reasons_indistinguishable_witness :
    (requestToken [] (fun _ => [])
      { deviceId := some "ZZ", secret := some "x", firmwareVersion := none }
      (.ok "tok") "t1").1 = .unauthorized "Invalid credentials" ∧
    (requestToken [] (fun _ => [])
      { deviceId := some "ZZ", secret := some "x", firmwareVersion := none }
      (.ok "tok") "t1").1 =
    (requestToken
      [("AA", ⟨"AA", "sec", .revoked, "t0", none, 0, some "t1", some "lost",
        ⟨"unknown", "unknown", []⟩⟩)]
      (fun _ => [])
      { deviceId := some "AA", secret := some "sec", firmwareVersion := none }
      (.ok "tok") "t2").1 :=
  failure_reasons_indistinguishable []
    [("AA", ⟨"AA", "sec", .revoked, "t0", none, 0, some "t1", some "lost",
      ⟨"unknown", "unknown", []⟩⟩)]
    (fun _ => []) (fun _ => [])
    { deviceId := some "ZZ", secret := some "x", firmwareVersion := none }
    { deviceId := some "AA", secret := some "sec", firmwareVersion := none }
    (.ok "tok") (.ok "tok") "t1" "t2"
    .unknownDevice (.inactive .revoked) (by decide)
    rfl rfl rfl rfl rfl rfl

/-- C10: revoke changes exactly the revocation fields of exactly the revoked
device — its id, secret, registration time, last-auth time, auth counter and
metadata keep their values, `status` becomes `revoked`, `revokedAt` and
`revokeReason` are set — and every other key of the registry reads back
unchanged. -/
theorem revoke_frame (r : Registry) (deviceId : String) (reason : Option String)
    (now : String) (rNew : Registry) (d : Device)
    (hd : List.lookup deviceId r = some d)
    (h : revokeDevice r deviceId reason now = .ok rNew) :
    (∃ d2 : Device, List.lookup deviceId rNew = some d2 ∧
      d2.deviceId = d.deviceId ∧ d2.secret = d.secret ∧
      d2.registeredAt = d.registeredAt ∧ d2.lastAuthAt = d.lastAuthAt ∧
      d2.authCount = d.authCount ∧ d2.metadata = d.metadata ∧
      d2.status = .revoked ∧ d2.revokedAt = some now ∧
      d2.revokeReason = some (reason.getD "")) ∧
    ∀ j, j ≠ deviceId → List.lookup j rNew = List.lookup j r := by
  unfold revokeDevice at h
  rw [hd] at h
  simp only [Except.ok.injEq] at h
  subst h
  constructor
  · have hl := lookup_updateEntry_self r deviceId
      (fun d => { d with status := .revoked, revokedAt := some now,
                         revokeReason := some (reason.getD "") })
    rw [hd] at hl
    exact ⟨_, hl, rfl, rfl, rfl, rfl, rfl, rfl, rfl, rfl, rfl⟩
  · intro j hj
    exact lookup_updateEntry_other r deviceId j _ hj

/-- C10 witness: revoking one of two concrete devices rewrites exactly its
revocation fields and leaves the sibling device's stored record untouched. -/
theorem revoke_frame_witness :
    (∃ d2 : Device,
      List.lookup "AA"
        [("AA", ⟨"AA", "secA", .revoked, "t0", some "t1", 4, some "t5",
          some "lost", ⟨"1.0", "unknown", []⟩⟩),
         ("BB", ⟨"BB", "secB", .active, "t2", none, 0, none, none,
          ⟨"unknown", "unknown", []⟩⟩)] = some d2 ∧
      d2.deviceId = "AA" ∧ d2.secret = "secA" ∧
      d2.registeredAt = "t0" ∧ d2.lastAuthAt = some "t1" ∧
      d2.authCount = 4 ∧ d2.metadata = ⟨"1.0", "unknown", []⟩ ∧
      d2.status = .revoked ∧ d2.revokedAt = some "t5" ∧
      d2.revokeReason = some "lost") ∧
    ∀ j, j ≠ "AA" →
      List.lookup j
        ([("AA", ⟨"AA", "secA", .revoked, "t0", some "t1", 4, some "t5",
          some "lost", ⟨"1.0", "unknown", []⟩⟩),
         ("BB", ⟨"BB", "secB", .active, "t2", none, 0, none, none,
          ⟨"unknown", "unknown", []⟩⟩)] : Registry) =
      List.lookup j
        ([("AA", ⟨"AA", "secA", .active, "t0", some "t1", 4, none, none,
          ⟨"1.0", "unknown", []⟩⟩),
         ("BB", ⟨"BB", "secB", .active, "t2", none, 0, none, none,
          ⟨"unknown", "unknown", []⟩⟩)] : Registry) :=
  revoke_frame
    [("AA", ⟨"AA", "secA", .active, "t0", some "t1", 4, none, none,
      ⟨"1.0", "unknown", []⟩⟩),
     ("BB", ⟨"BB", "secB", .active, "t2", none, 0, none, none,
      ⟨"unknown", "unknown", []⟩⟩)]
    "AA" (some "lost") "t5" _
    ⟨"AA", "secA", .active, "t0", some "t1", 4, none, none,
      ⟨"1.0", "unknown", []⟩⟩
    rfl rfl

end IoTAuth

